import Mathlib

set_option maxHeartbeats 1000000
set_option maxRecDepth 100000

namespace Krib

/-! Data model of the client chat store, from `src/unnamed/part_006`
(`useChatStore`) and `src/client/src/types/index.ts` (`Message`). -/

/-- The `Message` record of `src/client/src/types/index.ts`. -/
structure Message where
  id : String
  type : String
  content : String
  phone : Option String
  timestamp : String
  device_id : String
  deriving DecidableEq

/-- The chat store state of `src/unnamed/part_006` (`ChatState`): the feed,
the active tab and the last-post time used for the cooldown display. -/
structure ChatState where
  messages : List Message
  activeTab : String
  lastPostTime : Int
  deriving DecidableEq

/-- `addMessage` from `src/unnamed/part_006` lines 23-28: if a message with the
same id is already present the state is returned unchanged, else the message is
appended to the feed. -/
def addMessage (msg : Message) (s : ChatState) : ChatState :=
  if s.messages.any (fun m => m.id == msg.id) then s
  else { s with messages := s.messages ++ [msg] }

/-! The WebSocket delivery filter of the client, from `src/client/src/App.tsx`
lines 293-335 (the `lastMessage` effect). The parsed JSON frame is modelled
with `Option String` fields: `none` renders a missing (JS `undefined`) field. -/

/-- A parsed WebSocket frame as read by the effect in `App.tsx` (the
`BackendMessage` shape: every field the adapter touches may be absent). -/
structure WsData where
  id : String
  browser_id : Option String
  device_id : Option String
  message : Option String
  content : Option String
  message_type : Option String
  location : Option String
  deriving DecidableEq

/-- JS truthiness of a possibly-missing string: `undefined` and `""` are falsy. -/
def jsTruthy (o : Option String) : Bool :=
  match o with
  | none => false
  | some s => !s.isEmpty

/-- The JS `a || b` operator on possibly-missing strings, as in
`data.browser_id || data.device_id` in `App.tsx` line 310. -/
def jsOrStr (a b : Option String) : Option String :=
  if jsTruthy a then a else b

/-- Whether the WebSocket effect of `App.tsx` lines 293-335 adds the incoming
frame to the feed: it is skipped when it carries a truthy `location` different
from the client city, or when its browser id equals the client device id. -/
def wsAccepts (d : WsData) (city devId : String) : Bool :=
  if jsTruthy d.location && decide (d.location ≠ some city) then false
  else if decide (jsOrStr d.browser_id d.device_id = some devId) then false
  else true

/-! The client input length guard, from
`src/client/src/components/InputArea.tsx` line 204 (`isOverLimit`) and the
`maxLength={280}` / disabled-submit wiring at lines 262-292. A JS string is
modelled as its list of unicode code points; the JS `.length` property counts
UTF-16 code units, two per astral (non-BMP) code point. -/

/-- Number of UTF-16 code units of one unicode code point. -/
def utf16Units (c : Nat) : Nat := if c < 65536 then 1 else 2

/-- The JS `String.prototype.length` of a text given as code points. -/
def jsLength (cps : List Nat) : Nat := (cps.map utf16Units).sum

/-- `isOverLimit` from `InputArea.tsx` line 204: `content.length > 280`. -/
def isOverLimit (cps : List Nat) : Bool := decide (280 < jsLength cps)

/-- Modelled from the spec: the server-side body length validation (the Rust
handler is absent from the sources); a body is accepted for length iff it has
at most 280 unicode code points. -/
def bodyLengthAccepted (cps : List Nat) : Bool := decide (cps.length ≤ 280)

/-! Content moderator. Modelled from the spec: the Rust
`ModerationService` (`server/src/security/moderation.rs`) is absent from the
sources; the rules below follow spec section 4.7 and
`src/server/docs/MODERATION.md`. Text is modelled as a list of characters. -/

/-- Outcome of content moderation: accept, or reject with a category token. -/
inductive Decision where
  | accept : Decision
  | reject : String → Decision
  deriving DecidableEq

/-- Character is an ASCII uppercase letter. -/
def isUpperAlpha (c : Char) : Bool := decide ('A' ≤ c) && decide (c ≤ 'Z')

/-- Character is an ASCII lowercase letter. -/
def isLowerAlpha (c : Char) : Bool := decide ('a' ≤ c) && decide (c ≤ 'z')

/-- Character is an ASCII letter. -/
def isAlphaCh (c : Char) : Bool := isUpperAlpha c || isLowerAlpha c

/-- Character is an ASCII digit. -/
def isDigitCh (c : Char) : Bool := decide ('0' ≤ c) && decide (c ≤ '9')

/-- ASCII lowercase conversion of one character. -/
def toLowerCh (c : Char) : Char :=
  if isUpperAlpha c then Char.ofNat (c.toNat + 32) else c

/-- ASCII lowercase conversion of a text. -/
def lowerStr (s : List Char) : List Char := s.map toLowerCh

/-- Character is whitespace for tokenization purposes. -/
def isWs (c : Char) : Bool := c == ' ' || c == '\n' || c == '\t' || c == '\r'

/-- Helper of `splitWs`: splits on whitespace, accumulating the current token
in reverse. -/
def splitWsAux : List Char → List Char → List (List Char)
  | [], acc => if acc.isEmpty then [] else [acc.reverse]
  | c :: rest, acc =>
    if isWs c then
      if acc.isEmpty then splitWsAux rest [] else acc.reverse :: splitWsAux rest []
    else splitWsAux rest (c :: acc)

/-- Whitespace tokenization of a text. -/
def splitWs (s : List Char) : List (List Char) := splitWsAux s []

/-- Whether `pat` occurs at the start of `s`. -/
def startsWithL : List Char → List Char → Bool
  | [], _ => true
  | _ :: _, [] => false
  | p :: ps, c :: cs => p == c && startsWithL ps cs

/-- Whether `pat` occurs as a contiguous substring of the second argument. -/
def containsL (pat : List Char) : List Char → Bool
  | [] => startsWithL pat []
  | c :: rest => startsWithL pat (c :: rest) || containsL pat rest

/-- Phone-pattern scan: counts digits in a run that may be interleaved with
the separators of the international, dashed, dotted and parenthesized phone
families; ten digits in one run flag an embedded phone number. -/
def phoneScan : List Char → Nat → Bool
  | [], _ => false
  | c :: rest, run =>
    if isDigitCh c then
      if 10 ≤ run + 1 then true else phoneScan rest (run + 1)
    else if c == '-' || c == '.' || c == '(' || c == ')' || c == '+' then
      phoneScan rest run
    else phoneScan rest 0

/-- Whether a text embeds a phone number pattern. -/
def containsPhone (s : List Char) : Bool := phoneScan s 0

/-- The explicit scam and shortener host list of spec section 4.7 rule 3. -/
def scamHosts : List String :=
  ["t.me", "telegram.me", "bit.ly", "tinyurl.com", "goo.gl",
   "rebrand.ly", "ow.ly", "lnk.co", "clickbank.net"]

/-- Count of URL-like tokens (after lowercasing), spec section 4.7 rule 4. -/
def urlCount (s : List Char) : Nat :=
  ((splitWs (lowerStr s)).filter (fun t =>
    startsWithL "http://".data t || startsWithL "https://".data t ||
    startsWithL "www.".data t)).length

/-- The English and Hinglish profanity word list, from spec section 4.7 rule 5
and `src/server/docs/MODERATION.md`. -/
def profanityWords : List String :=
  ["damn", "hell", "crap", "bitch", "chutiya", "madarchod", "behenchod",
   "bhosdike", "gaandu", "harami", "randi", "saali", "lodu", "chakka",
   "ullu", "bc"]

/-- Whether some whitespace token, lowercased and restricted to its letters,
equals a profanity word (case-insensitive word-boundary matching). -/
def hasProfanity (s : List Char) : Bool :=
  (splitWs s).any (fun t =>
    profanityWords.any (fun w => (lowerStr t).filter isAlphaCh == w.data))

/-- The spam phrase list of spec section 4.7 rule 6. -/
def spamPhrases : List String :=
  ["contact me on telegram", "dm me", "whatsapp only", "make money fast",
   "limited offer", "act fast"]

/-- Helper of `hasLongRun`: detects a run of more than five equal characters,
given the previous character and the current run length. -/
def runScan : List Char → Char → Nat → Bool
  | [], _, _ => false
  | c :: rest, prev, run =>
    if c == prev then
      if 5 < run + 1 then true else runScan rest c (run + 1)
    else runScan rest c 1

/-- Whether the text has a run of the same character longer than five. -/
def hasLongRun : List Char → Bool
  | [] => false
  | c :: rest => runScan rest c 1

/-- Pattern heuristics of spec section 4.7 rule 7: more than 70 percent
uppercase among the letters of a text with at least ten letters, or a run of
one character longer than five. -/
def heuristicsReject (s : List Char) : Bool :=
  (decide (10 ≤ (s.filter isAlphaCh).length) &&
   decide (7 * (s.filter isAlphaCh).length < 10 * (s.filter isUpperAlpha).length)) ||
  hasLongRun s

/-- The rental keyword set of spec section 4.7 rule 8. -/
def rentalKeywords : List String :=
  ["room", "flat", "apartment", "bhk", "rent", "rental", "property",
   "location", "available", "looking", "accommodation", "deposit",
   "furnished", "sharing", "parking", "tenant", "landlord"]

/-- Relevance check of spec section 4.7 rule 8: for bodies of more than three
words, fewer than ten percent keyword-matching tokens is off-topic. -/
def offTopic (s : List Char) : Bool :=
  let toks := splitWs s
  if 3 < toks.length then
    decide ((toks.filter (fun t =>
      rentalKeywords.any (fun k => containsL k.data (lowerStr t)))).length * 10
      < toks.length)
  else false

/-- Modelled from the spec: the pure moderation function of spec section 4.7
(the Rust `moderate_message` is absent from the sources), with the remote
moderation API unconfigured (rule 9 passes). Rules run in the spec order. -/
def moderate (s : List Char) : Decision :=
  if containsPhone s then Decision.reject "embedded_phone"
  else if scamHosts.any (fun h => containsL h.data (lowerStr s)) then
    Decision.reject "scam_url"
  else if 3 ≤ urlCount s then Decision.reject "spam"
  else if hasProfanity s then Decision.reject "profanity"
  else if spamPhrases.any (fun p => containsL p.data (lowerStr s)) then
    Decision.reject "spam"
  else if heuristicsReject s then Decision.reject "other"
  else if offTopic s then Decision.reject "off_topic"
  else Decision.accept

/-- Helper of `sanitize`: drops every HTML tag; the flag records being inside
a tag (between a seen open angle bracket and the next close angle bracket). -/
def stripTags : List Char → Bool → List Char
  | [], _ => []
  | c :: rest, true => if c == '>' then stripTags rest false else stripTags rest true
  | c :: rest, false => if c == '<' then stripTags rest true else c :: stripTags rest false

/-- Modelled from the spec: the HTML sanitizer applied to accepted bodies
before storage (the Rust `sanitize_html` of `server/src/models.rs`, described
in `src/SECURITY_HARDENING_COMPLETE.md` lines 10-13, is absent from the
sources); it strips HTML tags and keeps the remaining text content. -/
def sanitize (s : List Char) : List Char := stripTags s false

/-! Shadowban manager, violation counter and post pipeline. Modelled from the
spec: the Rust server (`server/src/security/shadowban.rs`,
`server/src/handlers.rs`) is absent from the sources; the definitions follow
spec sections 4.5, 4.9, 4.11 and `src/server/docs/MODERATION.md` lines 60-81.
Store maps are association lists where the most recent binding is first. -/

/-- A broadcast envelope on the `chat:messages` channel (spec section 4.9),
restricted to the fields the claims observe. -/
structure Envelope where
  sender : String
  body : List Char
  city : String
  deriving DecidableEq

/-- The coordination-store state the modelled pipeline touches: shadowban
records (`none` expiry renders a permanent ban), violation counters with
their window expiry, and the list of published envelopes. -/
structure StoreState where
  shadowban : List (String × Option Int)
  violations : List (String × (Nat × Int))
  published : List Envelope
  deriving DecidableEq

/-- Modelled from the spec: `is_shadowbanned(identity)` of spec section 4.5 is
key existence; a TTL-carrying ban exists while the current time is before its
expiry, a permanent ban always. -/
def isShadowbanned (id : String) (bans : List (String × Option Int)) (t : Int) : Bool :=
  match bans.lookup id with
  | none => false
  | some none => true
  | some (some e) => decide (t < e)

/-- Modelled from the spec: `record_violation(identity)` of spec section 4.5
and `src/server/docs/MODERATION.md` lines 60-81: increment the violation
counter, starting a fresh count with a 24 h (86400 s) window when the key is
absent or its window has expired; when the resulting count reaches three or
more, auto-shadowban the identity for 24 h. -/
def recordViolation (t : Int) (id : String) (st : StoreState) : StoreState :=
  let nc : Nat × Int :=
    match st.violations.lookup id with
    | none => (1, t + 86400)
    | some (c, e) => if e ≤ t then (1, t + 86400) else (c + 1, e)
  let st1 := { st with violations := (id, nc) :: st.violations }
  if 3 ≤ nc.1 then { st1 with shadowban := (id, some (t + 86400)) :: st1.shadowban } else st1

/-- A post request as the modelled pipeline sees it: posting identity,
message body, city and the honeypot `website` field. -/
structure PostRequest where
  identity : String
  body : String
  city : String
  website : String
  deriving DecidableEq

/-- Status and store state a post produces. -/
structure PostOutcome where
  status : Nat
  st : StoreState
  deriving DecidableEq

/-- Modelled from the spec: the post path of the request pipeline and handler
(spec sections 4.11 steps 5, 8, 9 and 4.12; the Rust `post_message` is absent
from the sources). A non-empty honeypot `website` field yields 429 and a
permanent shadowban; a shadowbanned identity gets a synthetic 200 with no
store mutation and no publish; a moderation reject records a violation and
yields 403; otherwise the sanitized body is published and 200 returned. -/
def postPipeline (t : Int) (req : PostRequest) (st : StoreState) : PostOutcome :=
  if req.website ≠ "" then
    { status := 429, st := { st with shadowban := (req.identity, none) :: st.shadowban } }
  else if isShadowbanned req.identity st.shadowban t then
    { status := 200, st := st }
  else
    match moderate req.body.data with
    | Decision.reject _ => { status := 403, st := recordViolation t req.identity st }
    | Decision.accept =>
      { status := 200,
        st := { st with published :=
          st.published ++ [⟨req.identity, sanitize req.body.data, req.city⟩] } }

/-- The request body built by `handleSendMessage` in `src/client/src/App.tsx`
lines 365-374: the honeypot `website` field is always the empty string and an
empty phone becomes an absent field. -/
structure PostPayload where
  browser_id : String
  message : String
  message_type : String
  phone : Option String
  location : String
  website : String
  deriving DecidableEq

/-- The payload constructor of `handleSendMessage` (`App.tsx` lines 365-374). -/
def handleSendMessagePayload (deviceId content phone mtype city : String) : PostPayload :=
  { browser_id := deviceId, message := content, message_type := mtype,
    phone := if phone = "" then none else some phone,
    location := city, website := "" }

/-! Rate limiter. Modelled from the spec: the Rust sliding-window limiter is
absent from the sources; the algorithm follows spec section 4.3 and the
Bot Detection Matrix of `src/unnamed/part_007` lines 316-324. -/

/-- A rate class: capacity and window length in seconds. -/
structure RateClass where
  capacity : Nat
  window : Int
  deriving DecidableEq

/-- The post class: at most 1 event per 60 s. -/
def postClass : RateClass := ⟨1, 60⟩

/-- The reveal class: at most 5 events per 3600 s. -/
def revealClass : RateClass := ⟨5, 3600⟩

/-- The burst class: at most 20 events per 2 s. -/
def burstClass : RateClass := ⟨20, 2⟩

/-- `zremrangebyscore(key, -inf, t - window)`: keep only the event timestamps
strictly newer than the window start. -/
def purgeWindow (t w : Int) (evs : List Int) : List Int :=
  evs.filter (fun s => decide (t - w < s))

/-- Count of events inside the window at time `t` after purging. -/
def windowCount (t w : Int) (evs : List Int) : Nat := (purgeWindow t w evs).length

/-- The oldest score of a list, with a default. -/
def oldestScore : List Int → Int → Int
  | [], d => d
  | s :: rest, d => oldestScore rest (if s < d then s else d)

/-- Outcome of a sliding-window check: the new event multiset on accept, or
the `retry_after_seconds` value on reject. -/
inductive RateResult where
  | accepted : List Int → RateResult
  | rejected : Int → RateResult
  deriving DecidableEq

/-- Modelled from the spec: the per-class sliding-window algorithm of spec
section 4.3: purge entries older than the window, count; at or above capacity
reject with `oldest_remaining_ts + window - t`, else add the event at `t`. -/
def rateCheck (cls : RateClass) (t : Int) (evs : List Int) : RateResult :=
  let purged := purgeWindow t cls.window evs
  if cls.capacity ≤ purged.length then
    RateResult.rejected (oldestScore purged t + cls.window - t)
  else
    RateResult.accepted (purged ++ [t])

/-! IP reputation engine. Modelled from the spec: the Rust risk-level service
is absent from the sources; the definitions follow the prompt in
`src/unnamed/part_008` (risk levels, data tracking) and spec section 4.6. -/

/-- The risk levels of `src/unnamed/part_008` lines 14-22. -/
inductive RiskLevel where
  | l0 : RiskLevel
  | l1 : RiskLevel
  | l2 : RiskLevel
  | l3 : RiskLevel
  deriving DecidableEq

/-- Risk level from the unique-report count, following `src/unnamed/part_008`:
0-1 reports level 0, 2 reports level 1, 3-5 reports level 2, 6 or more
level 3. -/
def riskLevelOf (n : Nat) : RiskLevel :=
  if n ≤ 1 then RiskLevel.l0
  else if n = 2 then RiskLevel.l1
  else if n ≤ 5 then RiskLevel.l2
  else RiskLevel.l3

/-- The post cooldown attached to each risk level (`src/unnamed/part_008`). -/
def cooldownSecs : RiskLevel → Nat
  | RiskLevel.l0 => 60
  | RiskLevel.l1 => 300
  | RiskLevel.l2 => 900
  | RiskLevel.l3 => 7200

/-- The cooldown the pipeline applies to an IP with `n` unique reports. -/
def appliedCooldown (n : Nat) : Nat := cooldownSecs (riskLevelOf n)

/-- The section 4.6 cooldown table of the spec, stated by its own rows: 60 s
for 0-1 unique reports, 300 s for exactly 2, 900 s for 3-5, 7200 s for 6 or
more. -/
def specCooldownTable (n : Nat) : Nat :=
  if n ≤ 1 then 60
  else if n = 2 then 300
  else if 3 ≤ n ∧ n ≤ 5 then 900
  else 7200

/-- Modelled from the spec: `sadd` on the `reports:ip:<ip>` set (spec section
4.6, `src/unnamed/part_008` line 12); adding an already-present member is a
no-op. The set is an accumulated duplicate-free list. -/
def sadd (fp : String) (s : List String) : List String :=
  if fp ∈ s then s else fp :: s

/-- `scard`: cardinality of the modelled set. -/
def scard (s : List String) : Nat := s.length

/-- Reports from a sequence of reporter fingerprints, applied in order. -/
def applyReports : List String → List String → List String
  | [], s => s
  | fp :: rest, s => applyReports rest (sadd fp s)

/-! Theorems. -/

/-- Claim C10: the chat store `addMessage` is idempotent per message id: when
a message with the same id is already in the list the state is returned
unchanged, otherwise the message is appended; and distinctness of the feed
ids is preserved, so at-least-once local delivery never duplicates an entry. -/
theorem addMessage_dedup_spec (s : ChatState) (m : Message) :
    ((∃ x ∈ s.messages, x.id = m.id) → addMessage m s = s) ∧
    ((∀ x ∈ s.messages, x.id ≠ m.id) →
      (addMessage m s).messages = s.messages ++ [m]) ∧
    ((s.messages.map Message.id).Nodup →
      ((addMessage m s).messages.map Message.id).Nodup) := by
  refine ⟨?_, ?_, ?_⟩
  · rintro ⟨x, hx, hid⟩
    have h : s.messages.any (fun y => y.id == m.id) = true := by
      simp only [List.any_eq_true, beq_iff_eq]
      exact ⟨x, hx, hid⟩
    simp [addMessage, h]
  · intro h
    have hfalse : ¬ s.messages.any (fun y => y.id == m.id) = true := by
      simp only [List.any_eq_true, beq_iff_eq]
      rintro ⟨x, hx, hid⟩
      exact h x hx hid
    simp [addMessage, hfalse]
  · intro hnd
    by_cases h : s.messages.any (fun y => y.id == m.id) = true
    · simpa [addMessage, h] using hnd
    · have hnotin : m.id ∉ s.messages.map Message.id := by
        simp only [List.any_eq_true, beq_iff_eq] at h
        simp only [List.mem_map]
        rintro ⟨x, hx, hid⟩
        exact h ⟨x, hx, hid⟩
      have : (addMessage m s).messages = s.messages ++ [m] := by
        simp [addMessage, h]
      rw [this, List.map_append]
      exact List.Nodup.append hnd (List.nodup_singleton _)
        (by simpa [List.disjoint_singleton] using hnotin)

/-- Witness for claim C10 at a concrete store state and message. -/
theorem addMessage_dedup_spec_witness :
    (addMessage ⟨"m1", "offered", "hi", none, "t1", "d1"⟩
      ⟨[⟨"m1", "offered", "hi", none, "t0", "d0"⟩], "offered", 0⟩ =
      ⟨[⟨"m1", "offered", "hi", none, "t0", "d0"⟩], "offered", 0⟩) ∧
    (addMessage ⟨"m2", "offered", "yo", none, "t1", "d1"⟩
      ⟨[⟨"m1", "offered", "hi", none, "t0", "d0"⟩], "offered", 0⟩).messages =
      [⟨"m1", "offered", "hi", none, "t0", "d0"⟩,
       ⟨"m2", "offered", "yo", none, "t1", "d1"⟩] :=
  ⟨(addMessage_dedup_spec ⟨[⟨"m1", "offered", "hi", none, "t0", "d0"⟩], "offered", 0⟩
      ⟨"m1", "offered", "hi", none, "t1", "d1"⟩).1
      ⟨⟨"m1", "offered", "hi", none, "t0", "d0"⟩, by simp, rfl⟩,
   (addMessage_dedup_spec ⟨[⟨"m1", "offered", "hi", none, "t0", "d0"⟩], "offered", 0⟩
      ⟨"m2", "offered", "yo", none, "t1", "d1"⟩).2.1 (by decide)⟩

/-- Counterexample for claim C7: a WebSocket frame whose `location` field is
the empty string is added to the feed of a client whose city is `Bangalore`,
although the frame's city does not match that city (the JS truthiness test
lets empty and missing locations through the city filter). -/
theorem wsAccepts_counterexample :
    wsAccepts ⟨"m1", some "other-device", none, some "hi", none,
      some "offered", some ""⟩ "Bangalore" "my-device" = true ∧
    (⟨"m1", some "other-device", none, some "hi", none,
      some "offered", some ""⟩ : WsData).location ≠ some "Bangalore" := by
  decide

/-- Claim C7 (amended): a frame the WebSocket effect adds to the feed matches
the client city whenever it carries a truthy (present and non-empty) city;
frames with a missing or empty `location` pass the filter regardless. -/
theorem wsAccepts_city_match (d : WsData) (city devId : String)
    (hadd : wsAccepts d city devId = true)
    (hloc : jsTruthy d.location = true) :
    d.location = some city := by
  by_cases hd : d.location = some city
  · exact hd
  · simp [wsAccepts, hloc, hd] at hadd

/-- Witness for the amended claim C7 at a concrete matching frame. -/
theorem wsAccepts_city_match_witness :
    wsAccepts ⟨"m2", some "other-device", none, some "hi", none,
      some "offered", some "Bangalore"⟩ "Bangalore" "my-device" = true ∧
    (⟨"m2", some "other-device", none, some "hi", none,
      some "offered", some "Bangalore"⟩ : WsData).location = some "Bangalore" :=
  ⟨by decide,
   wsAccepts_city_match _ "Bangalore" "my-device" (by decide) (by decide)⟩

/-- The JS UTF-16 length equals the code-point count on texts whose code
points lie in the basic multilingual plane. -/
theorem jsLength_eq_length_of_bmp (cps : List Nat)
    (h : ∀ c ∈ cps, c < 65536) : jsLength cps = cps.length := by
  induction cps with
  | nil => rfl
  | cons c rest ih =>
    have hc : c < 65536 := h c (List.mem_cons_self c rest)
    have hrest := ih (fun x hx => h x (List.mem_cons_of_mem c hx))
    simp only [jsLength, List.map_cons, List.sum_cons, utf16Units, if_pos hc,
      List.length_cons] at hrest ⊢
    omega

/-- Counterexample for claim C8: a body of exactly 280 unicode code points,
the last an astral emoji, is accepted by the length validation but the client
guard `isOverLimit` rejects it, because the JS string length counts UTF-16
code units (two for the emoji): the client does not enforce the same
280-code-point limit. -/
theorem bodyLimit_counterexample :
    (List.replicate 279 97 ++ [128512]).length = 280 ∧
    bodyLengthAccepted (List.replicate 279 97 ++ [128512]) = true ∧
    isOverLimit (List.replicate 279 97 ++ [128512]) = true := by
  decide

/-- Claim C8 (amended): the spec-modelled length validation accepts a body iff
it has at most 280 code points (so 280 is accepted and 281 rejected), and on
bodies whose code points all lie in the basic multilingual plane the client
guard `isOverLimit` enforces exactly the same bound; they part ways only on
astral code points, which the client counts twice. -/
theorem bodyLimit_agreement (cps : List Nat) (hbmp : ∀ c ∈ cps, c < 65536) :
    (bodyLengthAccepted cps = true ↔ cps.length ≤ 280) ∧
    (isOverLimit cps = false ↔ cps.length ≤ 280) := by
  constructor
  · simp [bodyLengthAccepted]
  · simp [isOverLimit, jsLength_eq_length_of_bmp cps hbmp]

/-- Witness for the amended claim C8 at a 280-character plain body. -/
theorem bodyLimit_agreement_witness :
    bodyLengthAccepted (List.replicate 280 97) = true ∧
    isOverLimit (List.replicate 280 97) = false :=
  ⟨(bodyLimit_agreement (List.replicate 280 97) (by decide)).1.mpr (by decide),
   (bodyLimit_agreement (List.replicate 280 97) (by decide)).2.mpr (by decide)⟩

/-- Claim C1: a post from a shadowbanned identity (with the honeypot field
empty, as every ordinary post) returns a 2xx synthetic success, mutates
nothing, and the broadcast bus receives no envelope whose sender is that
identity. -/
theorem shadowban_no_publish (t : Int) (req : PostRequest) (st : StoreState)
    (hban : isShadowbanned req.identity st.shadowban t = true)
    (hweb : req.website = "")
    (hclean : ∀ e ∈ st.published, e.sender ≠ req.identity) :
    (postPipeline t req st).status = 200 ∧
    (postPipeline t req st).st.published = st.published ∧
    ∀ e ∈ (postPipeline t req st).st.published, e.sender ≠ req.identity := by
  have hpp : postPipeline t req st = { status := 200, st := st } := by
    simp [postPipeline, hweb, hban]
  rw [hpp]
  exact ⟨rfl, rfl, hclean⟩

/-- Witness for claim C1 at a concrete shadowbanned identity. -/
theorem shadowban_no_publish_witness :
    (postPipeline 0 ⟨"S", "hello room", "Bangalore", ""⟩
      ⟨[("S", none)], [], []⟩).status = 200 ∧
    (postPipeline 0 ⟨"S", "hello room", "Bangalore", ""⟩
      ⟨[("S", none)], [], []⟩).st.published = [] ∧
    ∀ e ∈ (postPipeline 0 ⟨"S", "hello room", "Bangalore", ""⟩
      ⟨[("S", none)], [], []⟩).st.published, e.sender ≠ "S" :=
  shadowban_no_publish 0 ⟨"S", "hello room", "Bangalore", ""⟩
    ⟨[("S", none)], [], []⟩ (by decide) rfl (by simp)

/-- Claim C3: a post whose honeypot `website` field is non-empty receives
status 429 (not 403) and its identity is permanently shadowbanned on that
first occurrence; and the client post path always sends an empty `website`
field. -/
theorem honeypot_rejects_and_bans (t : Int) (req : PostRequest)
    (st : StoreState) (hweb : req.website ≠ "") :
    (postPipeline t req st).status = 429 ∧
    (postPipeline t req st).st.shadowban.lookup req.identity = some none ∧
    ∀ d c p mt ct, (handleSendMessagePayload d c p mt ct).website = "" := by
  refine ⟨?_, ?_, fun d c p mt ct => rfl⟩
  · simp [postPipeline, hweb]
  · simp [postPipeline, hweb, List.lookup]

/-- Witness for claim C3 at a concrete bot request. -/
theorem honeypot_rejects_and_bans_witness :
    (postPipeline 0 ⟨"B", "nice room", "Pune", "http://bot.test"⟩
      ⟨[], [], []⟩).status = 429 ∧
    (postPipeline 0 ⟨"B", "nice room", "Pune", "http://bot.test"⟩
      ⟨[], [], []⟩).st.shadowban.lookup "B" = some none ∧
    ∀ d c p mt ct, (handleSendMessagePayload d c p mt ct).website = "" :=
  honeypot_rejects_and_bans 0 ⟨"B", "nice room", "Pune", "http://bot.test"⟩
    ⟨[], [], []⟩ (by decide)

/-- Claim C4: the violation counter starts a 24 h (86400 s) window on its
first increment, restarts at one after the window expires, increments inside
a live window, and as soon as an increment returns three or more a 24 h
shadowban on the identity is created. -/
theorem recordViolation_spec (t : Int) (id : String) (st : StoreState) :
    (st.violations.lookup id = none →
      (recordViolation t id st).violations.lookup id = some (1, t + 86400)) ∧
    (∀ c e, st.violations.lookup id = some (c, e) → e ≤ t →
      (recordViolation t id st).violations.lookup id = some (1, t + 86400)) ∧
    (∀ c e, st.violations.lookup id = some (c, e) → t < e →
      (recordViolation t id st).violations.lookup id = some (c + 1, e)) ∧
    (∀ c e, st.violations.lookup id = some (c, e) → t < e → 2 ≤ c →
      (recordViolation t id st).shadowban.lookup id = some (some (t + 86400)) ∧
      isShadowbanned id (recordViolation t id st).shadowban t = true) := by
  refine ⟨?_, ?_, ?_, ?_⟩
  · intro h
    simp [recordViolation, h, List.lookup]
  · intro c e h hle
    simp [recordViolation, h, if_pos hle, List.lookup]
  · intro c e h hlt
    have hne : ¬ e ≤ t := by omega
    by_cases h3 : 3 ≤ c + 1
    · simp [recordViolation, h, if_neg hne, h3, List.lookup]
    · simp [recordViolation, h, if_neg hne, h3, List.lookup]
  · intro c e h hlt h2
    have hne : ¬ e ≤ t := by omega
    have h3 : 3 ≤ c + 1 := by omega
    constructor
    · simp [recordViolation, h, if_neg hne, h3, List.lookup]
    · simp [recordViolation, h, if_neg hne, h3, isShadowbanned, List.lookup]

/-- Witness for claim C4 at an identity with two prior violations inside a
live window. -/
theorem recordViolation_spec_witness :
    (recordViolation 0 "u" ⟨[], [("u", (2, 100))], []⟩).shadowban.lookup "u" =
      some (some (0 + 86400)) ∧
    isShadowbanned "u"
      (recordViolation 0 "u" ⟨[], [("u", (2, 100))], []⟩).shadowban 0 = true :=
  (recordViolation_spec 0 "u" ⟨[], [("u", (2, 100))], []⟩).2.2.2 2 100
    (by decide) (by decide) (by decide)

/-- Claim C2: for each of the three rate classes, at the moment a request is
accepted the count of events inside the class window, entries older than the
window purged, does not exceed the class capacity (post 1 per 60 s, reveal 5
per 3600 s, burst 20 per 2 s). -/
theorem rateCheck_capacity (cls : RateClass)
    (hcls : cls = postClass ∨ cls = revealClass ∨ cls = burstClass)
    (t : Int) (evs newEvs : List Int)
    (hacc : rateCheck cls t evs = RateResult.accepted newEvs) :
    windowCount t cls.window newEvs ≤ cls.capacity := by
  have hw : 0 < cls.window := by
    rcases hcls with h | h | h <;> rw [h] <;> decide
  unfold rateCheck at hacc
  by_cases hcap : cls.capacity ≤ (purgeWindow t cls.window evs).length
  · simp [hcap] at hacc
  · simp only [if_neg hcap, RateResult.accepted.injEq] at hacc
    subst hacc
    have hpt : t - cls.window < t := by omega
    simp only [purgeWindow] at hcap
    simp only [windowCount, purgeWindow, List.filter_append, List.length_append,
      List.filter_filter, Bool.and_self, List.filter_cons, List.filter_nil,
      decide_eq_true_eq, if_pos hpt, List.length_cons, List.length_nil]
    omega

/-- Witness for claim C2: the first post of an identity is accepted and its
window then holds one event, the post capacity. -/
theorem rateCheck_capacity_witness :
    rateCheck postClass 0 [] = RateResult.accepted [0] ∧
    windowCount 0 postClass.window [0] ≤ postClass.capacity :=
  ⟨by decide, rateCheck_capacity postClass (Or.inl rfl) 0 [] [0] (by decide)⟩

/-- Claim C5: the cooldown applied to an IP with `n` unique reports equals the
section 4.6 mapping: 60 s for 0-1 reports, 300 s for 2, 900 s for 3-5, and
7200 s for 6 or more. -/
theorem cooldown_matches_table (n : Nat) :
    appliedCooldown n = specCooldownTable n := by
  unfold appliedCooldown riskLevelOf specCooldownTable
  by_cases h1 : n ≤ 1
  · simp [h1, cooldownSecs]
  · by_cases h2 : n = 2
    · simp [h1, h2, cooldownSecs]
    · by_cases h3 : n ≤ 5
      · have h35 : 3 ≤ n ∧ n ≤ 5 := by omega
        simp [h1, h2, h3, h35, cooldownSecs]
      · have h35 : ¬ (3 ≤ n ∧ n ≤ 5) := by omega
        simp [h1, h2, h3, h35, cooldownSecs]

/-- A member already in the modelled set always stays a member of `sadd`. -/
theorem sadd_mem_self (fp : String) (s : List String) : fp ∈ sadd fp s := by
  unfold sadd
  split
  · assumption
  · exact List.mem_cons_self _ _

/-- `sadd` keeps every existing member. -/
theorem sadd_mem_mono (x fp : String) (s : List String) (h : x ∈ s) :
    x ∈ sadd fp s := by
  unfold sadd
  split
  · exact h
  · exact List.mem_cons_of_mem _ h

/-- `applyReports` keeps every existing member of the set. -/
theorem mem_applyReports_of_mem (x : String) (fps : List String) :
    ∀ s, x ∈ s → x ∈ applyReports fps s := by
  induction fps with
  | nil => intro s h; exact h
  | cons f rest ih => intro s h; exact ih _ (sadd_mem_mono _ _ _ h)

/-- Every reported fingerprint is a member of the resulting set. -/
theorem mem_applyReports_of_mem_list (x : String) (fps : List String)
    (h : x ∈ fps) : ∀ s, x ∈ applyReports fps s := by
  induction fps with
  | nil => cases h
  | cons f rest ih =>
    intro s
    rcases List.mem_cons.mp h with heq | hmem
    · subst heq
      exact mem_applyReports_of_mem x rest (sadd x s) (sadd_mem_self x s)
    · exact ih hmem _

/-- Reporting pairwise-distinct fingerprints absent from the set grows its
cardinality by exactly their number. -/
theorem applyReports_length (fps : List String) :
    ∀ s, fps.Nodup → (∀ f ∈ fps, f ∉ s) →
      (applyReports fps s).length = s.length + fps.length := by
  induction fps with
  | nil => intro s _ _; simp [applyReports]
  | cons f rest ih =>
    intro s hnd hdisj
    have hf : f ∉ s := hdisj f (List.mem_cons_self f rest)
    have hsadd : sadd f s = f :: s := by simp [sadd, hf]
    have hnd2 : rest.Nodup := (List.nodup_cons.mp hnd).2
    have hfrest : f ∉ rest := (List.nodup_cons.mp hnd).1
    have hdisj2 : ∀ g ∈ rest, g ∉ f :: s := by
      intro g hg
      simp only [List.mem_cons]
      rintro (rfl | hgs)
      · exact hfrest hg
      · exact hdisj g (List.mem_cons_of_mem f hg) hgs
    simp only [applyReports, hsadd]
    rw [ih (f :: s) hnd2 hdisj2]
    simp only [List.length_cons]
    omega

/-- Claim C6: reports from `N` distinct reporter fingerprints give the
per-IP report set cardinality exactly `N`, and a repeated report from an
already-present fingerprint leaves the cardinality unchanged at `N`. -/
theorem reports_cardinality (fps : List String) (hnd : fps.Nodup) :
    scard (applyReports fps []) = fps.length ∧
    ∀ fp ∈ fps, scard (sadd fp (applyReports fps [])) = fps.length := by
  have hlen : (applyReports fps []).length = fps.length := by
    simpa using applyReports_length fps [] hnd (by simp)
  refine ⟨hlen, ?_⟩
  intro fp hfp
  have hmem : fp ∈ applyReports fps [] := mem_applyReports_of_mem_list fp fps hfp []
  simp [scard, sadd, hmem, hlen]

/-- Witness for claim C6 at three distinct reporter fingerprints. -/
theorem reports_cardinality_witness :
    scard (applyReports ["f1", "f2", "f3"] []) = 3 ∧
    ∀ fp ∈ (["f1", "f2", "f3"] : List String),
      scard (sadd fp (applyReports ["f1", "f2", "f3"] [])) = 3 :=
  reports_cardinality ["f1", "f2", "f3"] (by decide)

/-- The tag stripper never emits an open angle bracket. -/
theorem stripTags_no_open (s : List Char) : ∀ b, '<' ∉ stripTags s b := by
  induction s with
  | nil => intro b; simp [stripTags]
  | cons c rest ih =>
    intro b
    cases b with
    | true =>
      by_cases h : c = '>'
      · subst h
        simpa [stripTags] using ih false
      · have hb : (c == '>') = false := by simp [h]
        simpa [stripTags, hb] using ih true
    | false =>
      by_cases h : c = '<'
      · subst h
        simpa [stripTags] using ih true
      · have hb : (c == '<') = false := by simp [h]
        simp only [stripTags, hb, Bool.false_eq_true, if_false, List.mem_cons,
          not_or]
        exact ⟨fun heq => h heq.symm, ih false⟩

/-- The tag stripper is the identity on text without an open angle bracket. -/
theorem stripTags_id_of_no_open (s : List Char) (h : '<' ∉ s) :
    stripTags s false = s := by
  induction s with
  | nil => rfl
  | cons c rest ih =>
    have hc : ¬ ('<' = c) ∧ '<' ∉ rest := by
      simpa [List.mem_cons, not_or] using h
    have hb : (c == '<') = false := by
      simp only [beq_eq_false_iff_ne, ne_eq]
      exact fun heq => hc.1 heq.symm
    simp only [stripTags, hb, Bool.false_eq_true, if_false, List.cons.injEq]
    exact ⟨trivial, ih hc.2⟩

/-- Sanitization is idempotent. -/
theorem sanitize_idem (s : List Char) : sanitize (sanitize s) = sanitize s :=
  stripTags_id_of_no_open _ (stripTags_no_open s false)

/-- Counterexample for claim C9: a body whose uppercase text hides inside a
lowercase HTML tag is accepted by moderation, but moderating the sanitized
body produced after the accept yields a different decision, because tag
stripping raises the uppercase share of the letters above 70 percent. -/
theorem moderate_not_idempotent :
    moderate ("<abcdefghij>ROOM RENT OK".data) = Decision.accept ∧
    moderate (sanitize ("<abcdefghij>ROOM RENT OK".data)) ≠
      moderate ("<abcdefghij>ROOM RENT OK".data) := by
  decide

/-- Claim C9 (amended): moderation is idempotent on sanitized bodies: since
sanitization is idempotent, re-running moderation on a stored (sanitized)
body yields the same decision as moderating that sanitized body; moderating
the raw body can disagree with re-moderation of its sanitized form. -/
theorem moderate_idem_on_sanitized (x : List Char) :
    moderate (sanitize (sanitize x)) = moderate (sanitize x) := by
  rw [sanitize_idem]

end Krib
